import Mathlib

/-!
Verification development for the USDA nutrition-proxy core:
unit conversion, unit normalization, ingredient rescaling, and
recipe aggregation.

Python floats are embedded as rationals (`ℚ`); `round(x, 4)` is embedded
as round-half-to-even at four decimal places; a raised exception is an
`Except.error` / an error component of the returned pair.
-/

namespace USDA

/-- Round a rational to the nearest integer, ties to even
(the rounding mode of Python `round`). -/
def roundHalfEven (q : ℚ) : ℤ :=
  let f : ℤ := Int.floor q
  let r : ℚ := q - f
  if r < 1/2 then f
  else if 1/2 < r then f + 1
  else if f % 2 = 0 then f else f + 1

/-- Embedding of Python `round(x, 4)`. -/
def round4 (q : ℚ) : ℚ := (roundHalfEven (q * 10000) : ℚ) / 10000

/-- ASCII lowercasing of one character, as Python `str.lower` acts on
the ASCII unit strings this program uses. -/
def pyLowerChar (c : Char) : Char :=
  if 'A' ≤ c ∧ c ≤ 'Z' then Char.ofNat (c.toNat + 32) else c

/-- Embedding of Python `str.lower` on ASCII strings. -/
def pyLower (s : String) : String := String.mk (s.data.map pyLowerChar)

/-- Whitespace characters removed by Python `str.strip`. -/
def isPySpace (c : Char) : Bool :=
  c = ' ' || c = '\t' || c = '\n' || c = '\r' || c = Char.ofNat 11 || c = Char.ofNat 12

/-- Embedding of Python `str.strip`: drop whitespace from both ends. -/
def pyStrip (s : String) : String :=
  String.mk (((s.data.dropWhile isPySpace).reverse.dropWhile isPySpace).reverse)

/-- Embedding of `unit.strip().lower()`, the normalization applied inline by
`Ingredient.scale` and as the first step of `normalize_unit`. -/
def pyStripLower (s : String) : String := pyLower (pyStrip s)

/-- Lookup in an association list modelling a Python dict
(first binding wins; dicts here have distinct keys). -/
def dlookup {α : Type} : List (String × α) → String → Option α
  | [], _ => none
  | (k, v) :: rest, s => if k = s then some v else dlookup rest s

/-- Table `MASS_UNITS` of helpers.py: canonical mass unit → grams multiplier. -/
def MASS_UNITS : List (String × ℚ) :=
  [("mg", 1/1000), ("g", 1), ("kg", 1000), ("oz", 283495/10000), ("lb", 45359237/100000)]

/-- Table `VOLUME_TO_ML` of helpers.py: canonical volume unit → milliliters multiplier. -/
def VOLUME_TO_ML : List (String × ℚ) :=
  [("ml", 1), ("l", 1000), ("tsp", 492892/100000), ("tbsp", 147868/10000),
   ("fl oz", 295735/10000), ("cup", 240), ("pint", 473176/1000),
   ("quart", 946353/1000), ("gallon", 378541/100)]

/-- Table `UNIT_SYNONYMS` of helpers.py. -/
def UNIT_SYNONYMS : List (String × String) :=
  [("milligram", "mg"), ("milligrams", "mg"), ("mg", "mg"),
   ("gram", "g"), ("grams", "g"), ("g", "g"),
   ("kilogram", "kg"), ("kilograms", "kg"), ("kg", "kg"),
   ("ounce", "oz"), ("ounces", "oz"), ("oz", "oz"),
   ("pound", "lb"), ("pounds", "lb"), ("lb", "lb"),
   ("milliliter", "ml"), ("milliliters", "ml"), ("ml", "ml"),
   ("liter", "l"), ("liters", "l"), ("l", "l"),
   ("teaspoon", "tsp"), ("teaspoons", "tsp"), ("tsp", "tsp"),
   ("tablespoon", "tbsp"), ("tablespoons", "tbsp"), ("tbsp", "tbsp"),
   ("fluid ounce", "fl oz"), ("fluid ounces", "fl oz"), ("fl oz", "fl oz"),
   ("cup", "cup"), ("cups", "cup"),
   ("pint", "pint"), ("pints", "pint"), ("pt", "pint"),
   ("quart", "quart"), ("quarts", "quart"), ("qt", "quart"),
   ("gallon", "gallon"), ("gallons", "gallon"), ("gal", "gallon")]

/-- The `volume_to_mass` density table local to `convert_units`
(water-density approximations, in grams per unit). -/
def volume_to_mass : List (String × ℚ) :=
  [("cup", 240), ("tbsp", 15), ("tsp", 5), ("fl oz", 30), ("ml", 1),
   ("l", 1000), ("pint", 473), ("quart", 946), ("gallon", 3785)]

/-- Function `normalize_unit` of helpers.py: strip, lowercase, synonym lookup
falling back to the stripped-lowercased input. -/
def normalize_unit (unit : String) : String :=
  let u := pyStripLower unit
  (dlookup UNIT_SYNONYMS u).getD u

/-- Decidable equality for `Except`, so that concrete runs of the
fallible operations can be checked by `decide`. -/
instance {ε α : Type} [DecidableEq ε] [DecidableEq α] : DecidableEq (Except ε α) := fun x y =>
  match x, y with
  | .ok a, .ok b =>
      if h : a = b then .isTrue (by rw [h]) else .isFalse (by intro hc; cases hc; exact h rfl)
  | .error e, .error e2 =>
      if h : e = e2 then .isTrue (by rw [h]) else .isFalse (by intro hc; cases hc; exact h rfl)
  | .ok _, .error _ => .isFalse (by intro hc; cases hc)
  | .error _, .ok _ => .isFalse (by intro hc; cases hc)

/-- Errors raised by the converter. -/
inductive ConvErr : Type
  /-- The `ValueError("Amount must be non-negative")` case. -/
  | invalidAmount : ConvErr
  /-- The unsupported-conversion `ValueError`, carrying the original,
  pre-normalization unit strings used in the message. -/
  | unsupported (fromUnit toUnit : String) : ConvErr
deriving DecidableEq, Repr

/-- Function `convert_units` of helpers.py (the synchronous version). -/
def convert_units (amount : ℚ) (from_unit to_unit : String) : Except ConvErr ℚ :=
  if amount < 0 then Except.error ConvErr.invalidAmount else
  let f := normalize_unit from_unit
  let t := normalize_unit to_unit
  if f = t then Except.ok amount else
  match dlookup MASS_UNITS f, dlookup MASS_UNITS t with
  | some mf, some mt => Except.ok (round4 (amount * mf / mt))
  | _, _ =>
  match dlookup VOLUME_TO_ML f, dlookup VOLUME_TO_ML t with
  | some vf, some vt => Except.ok (round4 (amount * vf / vt))
  | _, _ =>
  if h : (dlookup volume_to_mass f).isSome ∧ t = "g" then
    Except.ok (amount * (dlookup volume_to_mass f).get h.1)
  else if h2 : f = "g" ∧ (dlookup volume_to_mass t).isSome then
    Except.ok (amount / (dlookup volume_to_mass t).get h2.2)
  else
    Except.error (ConvErr.unsupported from_unit to_unit)

/-- Function `convert_units` of helpers_async.py: same tables, but no negativity
check, no identity short-circuit, and only five hard-coded cross-domain
cases in each direction. -/
def convert_units_async (amount : ℚ) (from_unit to_unit : String) : Except ConvErr ℚ :=
  let f := normalize_unit from_unit
  let t := normalize_unit to_unit
  match dlookup MASS_UNITS f, dlookup MASS_UNITS t with
  | some mf, some mt => Except.ok (round4 (amount * mf / mt))
  | _, _ =>
  match dlookup VOLUME_TO_ML f, dlookup VOLUME_TO_ML t with
  | some vf, some vt => Except.ok (round4 (amount * vf / vt))
  | _, _ =>
  if f = "cup" ∧ t = "g" then Except.ok (amount * 240)
  else if f = "tbsp" ∧ t = "g" then Except.ok (amount * 15)
  else if f = "tsp" ∧ t = "g" then Except.ok (amount * 5)
  else if f = "fl oz" ∧ t = "g" then Except.ok (amount * 30)
  else if f = "ml" ∧ t = "g" then Except.ok (amount * 1)
  else if f = "g" ∧ t = "cup" then Except.ok (amount / 240)
  else if f = "g" ∧ t = "tbsp" then Except.ok (amount / 15)
  else if f = "g" ∧ t = "tsp" then Except.ok (amount / 5)
  else if f = "g" ∧ t = "fl oz" then Except.ok (amount / 30)
  else if f = "g" ∧ t = "ml" then Except.ok amount
  else Except.error (ConvErr.unsupported from_unit to_unit)

/-- Model `Portion` of models.py (the `unit` validator lowercases/strips on
construction; the portions appearing below are already in that form). -/
structure Portion where
  unit : String
  amount : ℚ
  grams : ℚ
  description : Option String
deriving DecidableEq, Repr

/-- Model `Nutrient` of models.py. -/
structure Nutrient where
  key : String
  name : String
  value : ℚ
  unit : String
  min : Option ℚ
  max : Option ℚ
deriving DecidableEq, Repr

/-- Model `Ingredient` of models.py (the fields `scale` and the aggregators read). -/
structure Ingredient where
  fdc_id : ℤ
  description : String
  category : Option String
  data_type : Option String
  serving : Portion
  portions : List Portion
  nutrients : List Nutrient
deriving DecidableEq, Repr

/-- Exceptions `Ingredient.scale` can raise. -/
inductive ScaleErr : Type
  /-- A `ValueError` propagated from `convert_units`. -/
  | conv (e : ConvErr) : ScaleErr
  /-- A `ZeroDivisionError` from `amount / match.amount` when the matched
  portion has `amount == 0`. -/
  | zeroDivision : ScaleErr
deriving DecidableEq, Repr

/-- Embedding of `next((p for p in self.portions if p.unit == unit_norm), None)`. -/
def firstMatch (ps : List Portion) (u : String) : Option Portion :=
  match ps with
  | [] => none
  | p :: rest => if p.unit = u then some p else firstMatch rest u

/-- Model of the f-string `f"{amount} {unit_norm}"`; the rational is
rendered by `toString`, standing in for Python float formatting. -/
def pyFStr (amount : ℚ) (unit : String) : String :=
  toString amount ++ " " ++ unit

/-- Method `Ingredient.scale` of models.py, embedded imperatively: the result is
the ingredient state at return together with the exception raised, if any.
In the source, both possible raise points (`ZeroDivisionError` from
`amount / match.amount`, `ValueError` from `convert_units`) occur while
computing `new_grams`, before `self.serving` or any nutrient is assigned,
so an error leaves the state untouched.  The unit is normalized inline by
`unit.strip().lower()` only (no synonym lookup). -/
def scaleImp (i : Ingredient) (amount : ℚ) (unit : String) : Ingredient × Option ScaleErr :=
  let unit_norm := pyStripLower unit
  let old_grams := i.serving.grams
  let newGramsRes : Except ScaleErr ℚ :=
    match firstMatch i.portions unit_norm with
    | some m =>
        if m.amount = 0 then Except.error ScaleErr.zeroDivision
        else Except.ok (amount / m.amount * m.grams)
    | none =>
        match convert_units amount unit_norm "g" with
        | Except.ok g => Except.ok g
        | Except.error e => Except.error (ScaleErr.conv e)
  match newGramsRes with
  | Except.error e => (i, some e)
  | Except.ok new_grams =>
      let i2 : Ingredient :=
        { i with serving := ⟨unit_norm, amount, new_grams, some (pyFStr amount unit_norm)⟩ }
      let factor : ℚ := if old_grams ≠ 0 ∧ new_grams ≠ 0 then new_grams / old_grams else 1
      let i3 : Ingredient :=
        { i2 with nutrients := i2.nutrients.map (fun n => { n with value := round4 (n.value * factor) }) }
      (i3, none)

/-- The rescaled ingredient as §4.3 of the spec describes it: serving
replaced by `(normalizedUnit, amount, newGrams, "{amount} {normalizedUnit}")`
and every nutrient value multiplied by `factor` — `newGrams / oldGrams`
when both are non-zero, else `1` — and rounded to four decimals.
Stated from the spec wording, to be compared against `scaleImp`. -/
def applyScale (i : Ingredient) (amount : ℚ) (norm : String) (newGrams : ℚ) : Ingredient :=
  let factor : ℚ := if i.serving.grams ≠ 0 ∧ newGrams ≠ 0 then newGrams / i.serving.grams else 1
  { i with
    serving := ⟨norm, amount, newGrams, some (pyFStr amount norm)⟩,
    nutrients := i.nutrients.map (fun n => { n with value := round4 (n.value * factor) }) }

/-- Table `NUTRIENT_MAP` of helpers.py. -/
def NUTRIENT_MAP : List (String × String) :=
  [("208", "energy"), ("204", "fat"), ("203", "protein"), ("205", "carbs"),
   ("291", "fiber"), ("269", "sugars"), ("606", "sat_fat"), ("605", "trans_fat"),
   ("601", "cholesterol"), ("307", "sodium"), ("301", "calcium"), ("303", "iron"),
   ("306", "potassium"), ("328", "vitamin_d")]

/-- One `total[nut.name] = total.get(nut.name, 0) + nut.value` dict update,
preserving insertion order; a missing key contributes `0 + v = v`. -/
def dictAdd : List (String × ℚ) → String → ℚ → List (String × ℚ)
  | [], n, v => [(n, v)]
  | (k, x) :: rest, n, v =>
      if k = n then (k, x + v) :: rest else (k, x) :: dictAdd rest n v

/-- The summation loop of `calculate_recipe` (recipe_service.py lines
31-40).  Note it groups by `nut.name`, not by `nut.key`. -/
def recipeTotal (ings : List Ingredient) : List (String × ℚ) :=
  ings.foldl (fun t i => i.nutrients.foldl (fun t2 n => dictAdd t2 n.name n.value) t) []

/-- The aggregator's validation error. -/
inductive AggErr : Type
  /-- The `ValueError("Empty ingredient list")` case. -/
  | emptyInput : AggErr
deriving DecidableEq, Repr

/-- Function `calculate_recipe` of recipe_service.py with the upstream fetch
abstracted away: the argument is the list of already-resolved (and
already-rescaled) ingredients, one per input item, so the `not items`
guard is the emptiness of this list. -/
def calculate_recipe (ings : List Ingredient) : Except AggErr (List (String × ℚ)) :=
  if ings = [] then Except.error AggErr.emptyInput
  else Except.ok (recipeTotal ings)

/-- The initial totals of the `/recipe` route:
`{key: 0.0 for key in NUTRIENT_MAP.values()}`. -/
def routeTotals0 : List (String × ℚ) := NUTRIENT_MAP.map (fun p => (p.2, 0))

/-- Embedding of `totals[nut.key] += nut.value` on a plain dict: `none` models the
uncaught `KeyError` raised when the key is absent. -/
def dictIncr : List (String × ℚ) → String → ℚ → Option (List (String × ℚ))
  | [], _, _ => none
  | (k, x) :: rest, n, v =>
      if k = n then some ((k, x + v) :: rest)
      else (dictIncr rest n v).map (fun r => (k, x) :: r)

/-- The summation of the `/recipe` route (routes/recipe.py): totals are
pre-seeded with `0.0` for every tracked nutrient key, the item list is
never checked for emptiness, and a nutrient key outside `NUTRIENT_MAP`
raises `KeyError` (`none`). -/
def routeRecipe (ings : List Ingredient) : Option (List (String × ℚ)) :=
  ings.foldlM (fun t i => i.nutrients.foldlM (fun t2 n => dictIncr t2 n.key n.value) t)
    routeTotals0

/-- Embedding of `total.get(n, 0)`: dict lookup with default `0`. -/
def dictGet (t : List (String × ℚ)) (n : String) : ℚ := (dlookup t n).getD 0

/-- Total value carried under nutrient name `n` by one nutrient list
(0 when the name is absent) — the per-ingredient contribution the
aggregation contract describes. -/
def nameSum (nuts : List Nutrient) (n : String) : ℚ :=
  match nuts with
  | [] => 0
  | nut :: rest => (if nut.name = n then nut.value else 0) + nameSum rest n

/-! ### Concrete fixtures used by witnesses and counterexamples -/

/-- A one-cup portion weighing 250 grams (a realistic non-water portion,
so matching it differs from the 240 g/cup water-density fallback). -/
def portionCup : Portion := ⟨"cup", 1, 250, some "1 cup"⟩

/-- The default 100 g portion `from_food_details` always creates. -/
def portionDefault : Portion := ⟨"g", 100, 100, some "100 g"⟩

/-- A concrete ingredient with a cup portion and one protein nutrient. -/
def ingCup : Ingredient :=
  ⟨1001, "Test Food", none, none, portionDefault, [portionDefault, portionCup],
   [⟨"protein", "Protein", 10, "g", none, none⟩]⟩

/-- A concrete ingredient with one nutrient whose `key` and `name` differ. -/
def ingE : Ingredient :=
  ⟨2002, "Energy Food", none, none, portionDefault, [portionDefault],
   [⟨"energy", "Energy", 5, "kcal", none, none⟩]⟩

/-! ### Helper lemmas -/

theorem dlookup_mem {α : Type} {l : List (String × α)} {s : String} {v : α}
    (h : dlookup l s = some v) : (s, v) ∈ l := by
  induction l with
  | nil => simp [dlookup] at h
  | cons p rest ih =>
      obtain ⟨k, x⟩ := p
      by_cases hk : k = s
      · subst hk
        simp [dlookup] at h
        simp [h]
      · simp [dlookup, hk] at h
        simp [ih h]

theorem vol_key_not_mass {s : String} {v : ℚ} (h : (s, v) ∈ VOLUME_TO_ML) :
    dlookup MASS_UNITS s = none := by
  fin_cases h <;> rfl

/-! ### C6: identity law -/

/-- C6: for every amount `a ≥ 0` and every unit string `u`, including
strings the unit tables do not recognize, `convert_units a u u`
returns exactly `a`, unrounded. -/
theorem convert_units_identity (a : ℚ) (ha : 0 ≤ a) (u : String) :
    convert_units a u u = Except.ok a := by
  unfold convert_units
  rw [if_neg (not_lt.mpr ha)]
  exact if_pos rfl

/-- Witness for C6 at `a = 7` and the unrecognized unit `" Weird Unit "`. -/
theorem convert_units_identity_witness :
    (0 : ℚ) ≤ 7 ∧ convert_units 7 " Weird Unit " " Weird Unit " = Except.ok 7 :=
  ⟨by norm_num, convert_units_identity 7 (by norm_num) " Weird Unit "⟩

/-! ### C8: negative amounts -/

/-- C8: for every `a < 0` and any unit strings, `convert_units` fails with
`InvalidAmount`; the check precedes normalization and conversion, so no
other outcome is possible for negative amounts. -/
theorem convert_units_negative (a : ℚ) (ha : a < 0) (fu tu : String) :
    convert_units a fu tu = Except.error ConvErr.invalidAmount := by
  unfold convert_units
  rw [if_pos ha]

/-- Witness for C8 at `a = -3`, `"cup" → "tbsp"`. -/
theorem convert_units_negative_witness :
    (-3 : ℚ) < 0 ∧ convert_units (-3) "cup" "tbsp" = Except.error ConvErr.invalidAmount :=
  ⟨by norm_num, convert_units_negative (-3) (by norm_num) "cup" "tbsp"⟩

/-! ### C1: the docstring's concrete conversions -/

/-- C1: evaluation of the three docstring examples.  `100 g → oz` does
round to `3.5274`, but `1 cup → tbsp` yields `16.2307` (the docstring and
the claim say `16.0`) and `0.5 gallon → cup` yields `7.8863` (the
docstring and the claim say `8.0`): the volume path divides by the
milliliter table (`tbsp = 14.7868 ml`, `gallon = 3785.41 ml`), not by the
16-tbsp/cup and 16-cup/gallon customary ratios the documentation asserts. -/
theorem convert_units_docstring_cases :
    convert_units 100 "g" "oz" = Except.ok (35274 / 10000) ∧
    convert_units 1 "cup" "tbsp" = Except.ok (162307 / 10000) ∧
    (162307 / 10000 : ℚ) ≠ 16 ∧
    convert_units (1 / 2) "gallon" "cup" = Except.ok (78863 / 10000) ∧
    (78863 / 10000 : ℚ) ≠ 8 := by
  refine ⟨?_, ?_, by norm_num, ?_, by norm_num⟩
  · have h : convert_units 100 "g" "oz" =
        Except.ok (round4 (100 * 1 / (283495 / 10000))) := rfl
    rw [h]
    simp only [round4, roundHalfEven]
    norm_num
  · have h : convert_units 1 "cup" "tbsp" =
        Except.ok (round4 (1 * 240 / (147868 / 10000))) := rfl
    rw [h]
    simp only [round4, roundHalfEven]
    norm_num
  · have h : convert_units (1 / 2) "gallon" "cup" =
        Except.ok (round4 (1 / 2 * (378541 / 100) / 240)) := by
      unfold convert_units
      rw [if_neg (by norm_num : ¬ (1 / 2 : ℚ) < 0)]
      rfl
    rw [h]
    simp only [round4, roundHalfEven]
    norm_num

/-! ### C5: cross-domain density paths and same-domain rounding -/

/-- C5: for every amount `a ≥ 0`: (1) for every entry `(v, d)` of the
density table, `convert_units a v "g" = a * d` and
`convert_units a "g" v = a / d`, both at full precision; (2)–(3) every
same-domain conversion between distinct canonical units returns the
base-unit ratio rounded to 4 decimal places; (4)–(5) a cross-domain
conversion whose mass-side unit is not exactly `"g"` fails with
`UnsupportedConversion`. -/
theorem convert_units_domains (a : ℚ) (ha : 0 ≤ a) :
    (∀ p ∈ volume_to_mass,
      convert_units a p.1 "g" = Except.ok (a * p.2) ∧
      convert_units a "g" p.1 = Except.ok (a / p.2)) ∧
    (∀ p ∈ MASS_UNITS, ∀ q ∈ MASS_UNITS, p.1 ≠ q.1 →
      convert_units a p.1 q.1 = Except.ok (round4 (a * p.2 / q.2))) ∧
    (∀ p ∈ VOLUME_TO_ML, ∀ q ∈ VOLUME_TO_ML, p.1 ≠ q.1 →
      convert_units a p.1 q.1 = Except.ok (round4 (a * p.2 / q.2))) ∧
    (∀ p ∈ VOLUME_TO_ML, ∀ q ∈ MASS_UNITS, q.1 ≠ "g" →
      convert_units a p.1 q.1 = Except.error (ConvErr.unsupported p.1 q.1)) ∧
    (∀ p ∈ MASS_UNITS, ∀ q ∈ VOLUME_TO_ML, p.1 ≠ "g" →
      convert_units a p.1 q.1 = Except.error (ConvErr.unsupported p.1 q.1)) := by
  have hng := not_lt.mpr ha
  refine ⟨?_, ?_, ?_, ?_, ?_⟩
  · intro p hp
    fin_cases hp <;>
      exact ⟨by unfold convert_units; rw [if_neg hng]; rfl,
             by unfold convert_units; rw [if_neg hng]; rfl⟩
  · intro p hp q hq hne
    fin_cases hp <;> fin_cases hq <;>
      first
        | exact absurd rfl hne
        | (unfold convert_units; rw [if_neg hng]; rfl)
  · intro p hp q hq hne
    fin_cases hp <;> fin_cases hq <;>
      first
        | exact absurd rfl hne
        | (unfold convert_units; rw [if_neg hng]; rfl)
  · intro p hp q hq hne
    fin_cases hp <;> fin_cases hq <;>
      first
        | exact absurd rfl hne
        | (unfold convert_units; rw [if_neg hng]; rfl)
  · intro p hp q hq hne
    fin_cases hp <;> fin_cases hq <;>
      first
        | exact absurd rfl hne
        | (unfold convert_units; rw [if_neg hng]; rfl)

/-- Witness for C5 at `a = 3` and the `tbsp` density entry, plus one
failing cross-domain pair (`cup → oz`). -/
theorem convert_units_domains_witness :
    (0 : ℚ) ≤ 3 ∧
    convert_units 3 "tbsp" "g" = Except.ok 45 ∧
    convert_units 3 "g" "tbsp" = Except.ok (1 / 5) ∧
    convert_units 3 "cup" "oz" = Except.error (ConvErr.unsupported "cup" "oz") := by
  have h := convert_units_domains 3 (by norm_num)
  have h1 := h.1 ("tbsp", 15) (by simp [volume_to_mass])
  have h4 := h.2.2.2.1 ("cup", 240) (by simp [VOLUME_TO_ML])
    ("oz", 283495 / 10000) (by simp [MASS_UNITS]) (by simp)
  refine ⟨by norm_num, ?_, ?_, h4⟩
  · rw [h1.1]; norm_num
  · rw [h1.2]; norm_num

/-! ### C10: the synchronous and asynchronous converters -/

theorem mass_key_not_vol {s : String} {v : ℚ} (h : (s, v) ∈ MASS_UNITS) :
    dlookup VOLUME_TO_ML s = none := by
  fin_cases h <;> rfl

/-- C10 (amended): the two `convert_units` definitions agree whenever the
amount is non-negative and the two units normalize to distinct units of
the same domain (both mass or both volume).  They diverge on negative
amounts, on the identity case, and on cross-domain conversions involving
`l`, `pint`, `quart` or `gallon`. -/
theorem convert_units_sync_async_same_domain (a : ℚ) (ha : 0 ≤ a) (fu tu : String)
    (hne : normalize_unit fu ≠ normalize_unit tu)
    (hdom :
      ((dlookup MASS_UNITS (normalize_unit fu)).isSome ∧
       (dlookup MASS_UNITS (normalize_unit tu)).isSome) ∨
      ((dlookup VOLUME_TO_ML (normalize_unit fu)).isSome ∧
       (dlookup VOLUME_TO_ML (normalize_unit tu)).isSome)) :
    convert_units a fu tu = convert_units_async a fu tu := by
  rcases hdom with ⟨hf, ht⟩ | ⟨hf, ht⟩
  · obtain ⟨mf, hmf⟩ := Option.isSome_iff_exists.mp hf
    obtain ⟨mt, hmt⟩ := Option.isSome_iff_exists.mp ht
    simp [convert_units, convert_units_async, not_lt.mpr ha, hne, hmf, hmt]
  · obtain ⟨vf, hvf⟩ := Option.isSome_iff_exists.mp hf
    obtain ⟨vt, hvt⟩ := Option.isSome_iff_exists.mp ht
    have hmf : dlookup MASS_UNITS (normalize_unit fu) = none :=
      vol_key_not_mass (dlookup_mem hvf)
    have hmt : dlookup MASS_UNITS (normalize_unit tu) = none :=
      vol_key_not_mass (dlookup_mem hvt)
    simp [convert_units, convert_units_async, not_lt.mpr ha, hne, hmf, hmt, hvf, hvt]

/-- Witness for C10's agreement at `2 kg → g`. -/
theorem convert_units_sync_async_same_domain_witness :
    (0 : ℚ) ≤ 2 ∧ normalize_unit "kg" ≠ normalize_unit "g" ∧
    convert_units 2 "kg" "g" = convert_units_async 2 "kg" "g" :=
  ⟨by norm_num, by decide,
   convert_units_sync_async_same_domain 2 (by norm_num) "kg" "g" (by decide)
     (Or.inl ⟨by decide, by decide⟩)⟩

/-- Counterexample to C10 as stated: on `1 l → g` the synchronous
converter returns `1000` through its full density table while the
asynchronous copy, whose hard-coded cross-domain cases omit `l`, raises
`UnsupportedConversion`. -/
theorem convert_units_sync_async_diverge :
    convert_units 1 "l" "g" = Except.ok 1000 ∧
    convert_units_async 1 "l" "g" = Except.error (ConvErr.unsupported "l" "g") := by
  constructor
  · have h : convert_units 1 "l" "g" = Except.ok (1 * 1000) := rfl
    rw [h]; norm_num
  · rfl

/-! ### C2 and C7: recipe aggregation -/

theorem dictGet_cons (k : String) (x : ℚ) (t : List (String × ℚ)) (n : String) :
    dictGet ((k, x) :: t) n = if k = n then x else dictGet t n := by
  by_cases h : k = n <;> simp [dictGet, dlookup, h]

theorem dictGet_dictAdd (t : List (String × ℚ)) (k : String) (v : ℚ) (n : String) :
    dictGet (dictAdd t k v) n = dictGet t n + (if k = n then v else 0) := by
  induction t with
  | nil => by_cases h : k = n <;> simp [dictAdd, dictGet, dlookup, h]
  | cons p rest ih =>
      obtain ⟨kp, xp⟩ := p
      by_cases h1 : kp = k
      · subst h1
        by_cases h2 : kp = n <;> simp [dictAdd, dictGet_cons, h2]
      · simp only [dictAdd, if_neg h1]
        rw [dictGet_cons, dictGet_cons]
        by_cases h2 : kp = n
        · have h3 : ¬ k = n := fun h => h1 (h2.trans h.symm)
          simp [h2, h3]
        · simp [h2, ih]

theorem dictGet_foldl_nutrients (nuts : List Nutrient) (t : List (String × ℚ)) (n : String) :
    dictGet (nuts.foldl (fun t2 nut => dictAdd t2 nut.name nut.value) t) n =
      dictGet t n + nameSum nuts n := by
  induction nuts generalizing t with
  | nil => simp [nameSum]
  | cons nut rest ih =>
      simp only [List.foldl_cons]
      rw [ih, dictGet_dictAdd]
      simp only [nameSum]
      ring

theorem dictGet_foldl_ingredients (ings : List Ingredient) (t : List (String × ℚ)) (n : String) :
    dictGet (ings.foldl
        (fun t2 i => i.nutrients.foldl (fun t3 nut => dictAdd t3 nut.name nut.value) t2) t) n =
      dictGet t n + (ings.map (fun i => nameSum i.nutrients n)).sum := by
  induction ings generalizing t with
  | nil => simp
  | cons i rest ih =>
      simp only [List.foldl_cons, List.map_cons, List.sum_cons]
      rw [ih, dictGet_foldl_nutrients]
      ring

/-- C2 (amended): on every non-empty ingredient list, `calculate_recipe`
returns the mapping that sends each nutrient NAME (the `name` field, not
the `key` field) to the sum of that nutrient's values across all
ingredients; an ingredient lacking the name contributes `0`
(`nameSum` of its nutrient list is `0` when the name is absent). -/
theorem calculate_recipe_totals_by_name (ings : List Ingredient) (hne : ings ≠ [])
    (n : String) :
    calculate_recipe ings = Except.ok (recipeTotal ings) ∧
    dictGet (recipeTotal ings) n = (ings.map (fun i => nameSum i.nutrients n)).sum := by
  refine ⟨by simp [calculate_recipe, hne], ?_⟩
  have h := dictGet_foldl_ingredients ings [] n
  simpa [recipeTotal, dictGet, dlookup] using h

/-- Witness for C2's amended statement on the one-ingredient list `[ingE]`
at the nutrient name `"Energy"`. -/
theorem calculate_recipe_totals_by_name_witness :
    ([ingE] : List Ingredient) ≠ [] ∧
    (calculate_recipe [ingE] = Except.ok (recipeTotal [ingE]) ∧
     dictGet (recipeTotal [ingE]) "Energy" =
       (([ingE] : List Ingredient).map (fun i => nameSum i.nutrients "Energy")).sum) :=
  ⟨by simp, calculate_recipe_totals_by_name [ingE] (by simp) "Energy"⟩

/-- Counterexample to C2 as stated: `ingE` carries one nutrient with
`key = "energy"` and `name = "Energy"`; the returned mapping is keyed by
the name, so the nutrient key `"energy"` is mapped to nothing. -/
theorem calculate_recipe_not_keyed_by_key :
    calculate_recipe [ingE] = Except.ok [("Energy", 5)] ∧
    dlookup [(("Energy" : String), (5 : ℚ))] "energy" = none :=
  ⟨rfl, rfl⟩

/-- C7 (amended): the service-layer aggregator rejects the empty list with
`EmptyInput`, but the route-layer aggregator accepts it and returns the
zero-valued mapping over all fourteen tracked nutrient keys. -/
theorem aggregate_empty_behavior :
    calculate_recipe ([] : List Ingredient) = Except.error AggErr.emptyInput ∧
    routeRecipe ([] : List Ingredient) = some
      [("energy", 0), ("fat", 0), ("protein", 0), ("carbs", 0), ("fiber", 0),
       ("sugars", 0), ("sat_fat", 0), ("trans_fat", 0), ("cholesterol", 0),
       ("sodium", 0), ("calcium", 0), ("iron", 0), ("potassium", 0),
       ("vitamin_d", 0)] :=
  ⟨rfl, rfl⟩

/-- Counterexample to C7 as stated: the `/recipe` route's aggregation
returns a (non-empty) zero-valued mapping on the empty list instead of
failing. -/
theorem route_aggregate_empty_returns_zeros :
    routeRecipe ([] : List Ingredient) = some routeTotals0 ∧
    routeTotals0.length = 14 ∧
    dictGet routeTotals0 "energy" = 0 :=
  ⟨rfl, rfl, rfl⟩

/-! ### C3, C4, C9: ingredient rescaling -/

/-- Case-by-case description of `scaleImp`, shared by the rescaling
theorems below. -/
theorem scaleImp_eq (i : Ingredient) (a : ℚ) (u : String) :
    scaleImp i a u =
      match firstMatch i.portions (pyStripLower u) with
      | some m =>
          if m.amount = 0 then (i, some ScaleErr.zeroDivision)
          else (applyScale i a (pyStripLower u) (a / m.amount * m.grams), none)
      | none =>
          match convert_units a (pyStripLower u) "g" with
          | Except.ok g => (applyScale i a (pyStripLower u) g, none)
          | Except.error e => (i, some (ScaleErr.conv e)) := by
  unfold scaleImp applyScale
  cases hm : firstMatch i.portions (pyStripLower u) with
  | some m =>
      by_cases hma : m.amount = 0 <;> simp [hm, hma]
  | none =>
      cases hc : convert_units a (pyStripLower u) "g" with
      | ok g => simp [hm, hc]
      | error e => simp [hm, hc]

/-- The four mutually exclusive outcomes of one `scale` call. -/
theorem scaleImp_cases (i : Ingredient) (a : ℚ) (u : String) :
    (∃ m, firstMatch i.portions (pyStripLower u) = some m ∧ m.amount = 0 ∧
      scaleImp i a u = (i, some ScaleErr.zeroDivision)) ∨
    (∃ m, firstMatch i.portions (pyStripLower u) = some m ∧ ¬ m.amount = 0 ∧
      scaleImp i a u = (applyScale i a (pyStripLower u) (a / m.amount * m.grams), none)) ∨
    (∃ g, firstMatch i.portions (pyStripLower u) = none ∧
      convert_units a (pyStripLower u) "g" = Except.ok g ∧
      scaleImp i a u = (applyScale i a (pyStripLower u) g, none)) ∨
    (∃ e, firstMatch i.portions (pyStripLower u) = none ∧
      convert_units a (pyStripLower u) "g" = Except.error e ∧
      scaleImp i a u = (i, some (ScaleErr.conv e))) := by
  cases hm : firstMatch i.portions (pyStripLower u) with
  | some m =>
      by_cases hma : m.amount = 0
      · exact Or.inl ⟨m, rfl, hma, by rw [scaleImp_eq]; simp [hm, hma]⟩
      · exact Or.inr (Or.inl ⟨m, rfl, hma, by rw [scaleImp_eq]; simp [hm, hma]⟩)
  | none =>
      cases hc : convert_units a (pyStripLower u) "g" with
      | ok g =>
          exact Or.inr (Or.inr (Or.inl ⟨g, rfl, rfl, by rw [scaleImp_eq]; simp [hm, hc]⟩))
      | error e =>
          exact Or.inr (Or.inr (Or.inr ⟨e, rfl, rfl, by rw [scaleImp_eq]; simp [hm, hc]⟩))

/-- C3: `scale` resolves `newGrams` as the spec says — from a matching
portion's own amount/grams ratio when `availablePortions` has a portion
whose unit equals the normalized target unit (the first match, its
`amount` non-zero so the division is defined), otherwise through
`convert_units(amount, normalizedUnit, "g")` — and then replaces the
serving and rescales every nutrient as `applyScale` describes. -/
theorem scale_resolution (i : Ingredient) (a : ℚ) (u : String) :
    (∀ m, firstMatch i.portions (pyStripLower u) = some m → m.amount ≠ 0 →
      scaleImp i a u = (applyScale i a (pyStripLower u) (a / m.amount * m.grams), none)) ∧
    (firstMatch i.portions (pyStripLower u) = none →
      ∀ g, convert_units a (pyStripLower u) "g" = Except.ok g →
      scaleImp i a u = (applyScale i a (pyStripLower u) g, none)) := by
  constructor
  · intro m hm hma
    rw [scaleImp_eq]
    simp [hm, hma]
  · intro hm g hg
    rw [scaleImp_eq]
    simp [hm, hg]

/-- Witness for C3 on `ingCup` rescaled to 2 cups: the `"cup"` portion
(1 cup = 250 g) matches, so `newGrams = 2 / 1 * 250`. -/
theorem scale_resolution_witness :
    firstMatch ingCup.portions (pyStripLower "cup") = some portionCup ∧
    portionCup.amount ≠ 0 ∧
    scaleImp ingCup 2 "cup" =
      (applyScale ingCup 2 (pyStripLower "cup") (2 / portionCup.amount * portionCup.grams),
       none) := by
  refine ⟨rfl, by norm_num [portionCup], ?_⟩
  exact (scale_resolution ingCup 2 "cup").1 portionCup rfl (by norm_num [portionCup])

/-- C4: rescaling is atomic.  Whenever `scale` raises, the ingredient it
returns is exactly the ingredient it was given (no partial update); in
particular, when no portion matches and the fallback conversion fails,
that `UnsupportedConversion` error propagates with the state untouched;
and on success the serving and all nutrient values are replaced together
in one step. -/
theorem scale_atomicity (i : Ingredient) (a : ℚ) (u : String) :
    (∀ e, (scaleImp i a u).2 = some e → (scaleImp i a u).1 = i) ∧
    (firstMatch i.portions (pyStripLower u) = none →
      ∀ e, convert_units a (pyStripLower u) "g" = Except.error e →
      scaleImp i a u = (i, some (ScaleErr.conv e))) ∧
    ((scaleImp i a u).2 = none →
      ∃ g, scaleImp i a u = (applyScale i a (pyStripLower u) g, none)) := by
  rcases scaleImp_cases i a u with
    ⟨m, hm, hma, heq⟩ | ⟨m, hm, hma, heq⟩ | ⟨g, hm, hc, heq⟩ | ⟨e, hm, hc, heq⟩
  · refine ⟨fun e2 he2 => by rw [heq], fun hnone => ?_, fun hnone => ?_⟩
    · rw [hnone] at hm; exact Option.noConfusion hm
    · rw [heq] at hnone; simp at hnone
  · refine ⟨fun e2 he2 => ?_, fun hnone => ?_, fun _ => ⟨a / m.amount * m.grams, heq⟩⟩
    · rw [heq] at he2; simp at he2
    · rw [hnone] at hm; exact Option.noConfusion hm
  · refine ⟨fun e2 he2 => ?_, fun _ e2 he2 => ?_, fun _ => ⟨g, heq⟩⟩
    · rw [heq] at he2; simp at he2
    · rw [hc] at he2; simp at he2
  · refine ⟨fun e2 he2 => by rw [heq], fun _ e2 he2 => ?_, fun hnone => ?_⟩
    · rw [hc] at he2
      injection he2 with h
      rw [heq, h]
    · rw [heq] at hnone; simp at hnone

/-- Witness for C4 on `ingCup` rescaled to 1 `"stone"`: no portion
matches, the converter fails, and the returned state is `ingCup`
unchanged. -/
theorem scale_atomicity_witness :
    firstMatch ingCup.portions (pyStripLower "stone") = none ∧
    convert_units 1 (pyStripLower "stone") "g" =
      Except.error (ConvErr.unsupported "stone" "g") ∧
    scaleImp ingCup 1 "stone" =
      (ingCup, some (ScaleErr.conv (ConvErr.unsupported "stone" "g"))) := by
  refine ⟨rfl, rfl, ?_⟩
  exact (scale_atomicity ingCup 1 "stone").2.1 rfl (ConvErr.unsupported "stone" "g") rfl

/-- C9 (amended): `scale` normalizes its target unit by trim and
lowercase only — it never consults the synonym table — so two spellings
give identical results exactly when they agree after `strip().lower()`;
a plural synonym such as `"cups"` is NOT identified with `"cup"`. -/
theorem scale_unit_strip_lower (i : Ingredient) (a : ℚ) (u v : String)
    (h : pyStripLower u = pyStripLower v) :
    scaleImp i a u = scaleImp i a v := by
  unfold scaleImp
  rw [h]

/-- Witness for C9's amended statement: `" CUP "` and `"cup"` agree after
trim + lowercase, so rescaling `ingCup` by either gives the same result. -/
theorem scale_unit_strip_lower_witness :
    pyStripLower " CUP " = pyStripLower "cup" ∧
    scaleImp ingCup 2 " CUP " = scaleImp ingCup 2 "cup" :=
  ⟨rfl, scale_unit_strip_lower ingCup 2 " CUP " "cup" rfl⟩

/-- Counterexample to C9 as stated: rescaling `ingCup` with the synonym
spelling `"cups"` misses the `"cup"` portion (1 cup = 250 g) and falls
back to the water-density conversion, producing a 480 g serving, while
the canonical spelling `"cup"` matches the portion and produces 500 g. -/
theorem scale_synonym_differs :
    (scaleImp ingCup 2 "cups").1.serving.grams = 480 ∧
    (scaleImp ingCup 2 "cup").1.serving.grams = 500 ∧
    scaleImp ingCup 2 "cups" ≠ scaleImp ingCup 2 "cup" := by
  have h1 : (scaleImp ingCup 2 "cups").1.serving.grams = (2 * 240 : ℚ) := rfl
  have h2 : (scaleImp ingCup 2 "cup").1.serving.grams = (2 / 1 * 250 : ℚ) := rfl
  refine ⟨by rw [h1]; norm_num, by rw [h2]; norm_num, ?_⟩
  intro h
  have h3 := congrArg (fun r => r.1.serving.grams) h
  simp only at h3
  rw [h1, h2] at h3
  norm_num at h3

end USDA
